import Mathlib

/-!
Verification of `.github/validate_links.py` from the plugin-registry
repository, as a shallow embedding in Lean.

The script is sequential, blocking I/O: every observable behavior is a
function of the plugin record on disk and of the responses the network
returns for each requested URL.  The embedding therefore models the
network as an oracle (`Network`) mapping a URL to the outcome of an HTTP
request (final response after redirects, or a raised exception), and
translates each Python function into a pure Lean function over that
oracle.  Plugin records are JSON objects whose checked fields are
strings (the data model of the registry), modelled as association lists
from keys to string values.
-/

/-! ## String helpers (Python `str` operations used by the script) -/

/-- `leadsWith pat l` is true when `pat` is a leading segment of `l`
(Python `str.startswith` on character lists). -/
def leadsWith : List Char → List Char → Bool
  | [], _ => true
  | _ :: _, [] => false
  | c :: cs, d :: ds => c == d && leadsWith cs ds

/-- `subIn sub l` is true when `sub` occurs contiguously inside `l`
(Python's `sub in s` on strings). -/
def subIn (sub : List Char) : List Char → Bool
  | [] => sub.isEmpty
  | c :: rest => leadsWith sub (c :: rest) || subIn sub rest

/-- Python `sub in s` substring test. -/
def containsSub (s sub : String) : Bool :=
  subIn sub.data s.data

/-- Python `s.strip("/")`: remove `/` from both ends. -/
def stripSlashes (s : String) : String :=
  String.mk (((s.data.dropWhile (· == '/')).reverse.dropWhile (· == '/')).reverse)

/-- Split a character list at the first occurrence of `"://"`, returning
the scheme part and what follows, or `none` when absent. -/
def splitScheme : List Char → Option (List Char × List Char)
  | [] => none
  | c :: rest =>
    if leadsWith [':', '/', '/'] (c :: rest) then some ([], rest.drop 2)
    else
      match splitScheme rest with
      | none => none
      | some (pre, post) => some (c :: pre, post)

/-- Python `s.split(sep)` for a one-character separator (`str.split`
keeps empty pieces; splitting the empty string gives `[""]`). -/
def splitChar (sep : Char) : List Char → List (List Char)
  | [] => [[]]
  | c :: rest =>
    match splitChar sep rest with
    | [] => [[c]]
    | g :: gs => if c == sep then [] :: g :: gs else (c :: g) :: gs

/-- Python `urllib.parse.urlparse(url)` restricted to the two fields the
script reads, `(netloc, path)`, for URLs of the registry's shape
`scheme://host/path` (no query, fragment, params, or userinfo). -/
def urlparse (url : String) : String × String :=
  match splitScheme url.data with
  | none => ("", url)
  | some (_, after) =>
    let netloc := after.takeWhile (fun c => c != '/')
    (String.mk netloc, String.mk (after.drop netloc.length))

/-! ## `is_camel_case` (validate_links.py lines 32-48) -/

/-- One full match of the regex body `[a-z][a-zA-Z0-9]*` against a whole
character list.  `Char.isLower` / `Char.isAlphanum` are exactly the
ASCII classes `[a-z]` / `[a-zA-Z0-9]`. -/
def camelCore : List Char → Bool
  | [] => false
  | c :: cs => c.isLower && cs.all (fun d => d.isAlphanum)

/-- `is_camel_case(s)`, the Python expression
`bool(re.match(r'^[a-z][a-zA-Z0-9]*$', s))`.  `re.match` anchors at the
start, and Python's `$` matches at the end of the string **or just
before a single trailing newline**, so the regex accepts either the
whole string or the whole string minus one final `'\n'`. -/
def is_camel_case (s : String) : Bool :=
  camelCore s.data || (s.data.getLast? == some '\n' && camelCore s.data.dropLast)

/-- Modelled from the spec's words (section 8, first property): `s` is
non-empty, its first character is `a`-`z`, and **all** characters are
alphanumeric.  Used only to compare the spec against `is_camel_case`. -/
def camel_case_spec (s : String) : Bool :=
  match s.data with
  | [] => false
  | c :: cs => c.isLower && (c :: cs).all (fun d => d.isAlphanum)

/-! ## Network model -/

/-- The kind of `requests` exception raised by a request, matching the
`except` clauses of the script: `requests.exceptions.Timeout`,
`requests.exceptions.ConnectionError`, and any other
`requests.exceptions.RequestException`. -/
inductive ExcKind where
  | timeout
  | connErr
  | otherExc
deriving DecidableEq

/-- Parsed JSON response bodies as far as the script inspects them: a
JSON object whose compared fields are strings (the registry data
model), or a JSON array of some length (the GitLab tree listing). -/
inductive PyJson where
  | obj (fields : List (String × String))
  | arr (len : Nat)
deriving DecidableEq

/-- The result of calling `.json()` on a response body: a parsed JSON
value, or a raised `JSONDecodeError` carrying its message. -/
inductive BodyJson where
  | ok (j : PyJson)
  | malformed (msg : String)
deriving DecidableEq

/-- Outcome of one HTTP request: the final response after redirects
(status code plus the result of `.json()` on the body), or a raised
exception. -/
inductive HttpOutcome where
  | resp (status : Nat) (body : BodyJson)
  | exc (kind : ExcKind) (msg : String)
deriving DecidableEq

/-- The network oracle: outcomes of `requests.head` and `requests.get`
per URL.  Redirect following (`allow_redirects=True`) is inside the
oracle: the status returned is the final one. -/
structure Network where
  head : String → HttpOutcome
  get : String → HttpOutcome

/-- `dict.get(key)` / `dict.get(key, default=None)` on a fetched
plugin.json object, specialised to the string fields the script
compares.  (On a non-`dict` the Python would raise `AttributeError`;
the registry data model fixes plugin.json to an object, and no claim
exercises that branch.) -/
def pyGet (j : PyJson) (k : String) : Option String :=
  match j with
  | .obj fields => (fields.find? (fun kv => kv.1 == k)).map (fun kv => kv.2)
  | .arr _ => none

/-! ## `validate_url` (lines 51-72) -/

/-- Result of the `except` clauses of `validate_url` for a raised
exception of the given kind (`str(e)` is the exception's message). -/
def exc_result : ExcKind → String → Bool × String
  | .timeout, _ => (false, "Request timeout")
  | .connErr, _ => (false, "Connection error")
  | .otherExc, m => (false, m)

/-- The final status check of `validate_url`:
`200 <= status_code < 400` succeeds, otherwise `HTTP {status}`. -/
def status_result (s : Nat) : Bool × String :=
  if 200 ≤ s && s < 400 then (true, "") else (false, "HTTP " ++ toString s)

/-- `validate_url(url)`: HEAD the URL; on HTTP 405 retry with GET (whose
exceptions are caught by the same `try`); succeed iff the final status
is in `[200, 400)`. -/
def validate_url (net : Network) (url : String) : Bool × String :=
  match net.head url with
  | .exc k m => exc_result k m
  | .resp s _ =>
    if s == 405 then
      match net.get url with
      | .exc k m => exc_result k m
      | .resp s2 _ => status_result s2
    else status_result s

/-! ## Repository URL parsing shared by `validate_repo_path` (lines
83-93) and `fetch_plugin_json` (lines 151-161); the two functions repeat
this block verbatim in the source. -/

/-- Extract `(netloc, path_parts)` from a repository URL: parse the URL,
strip surrounding `/` from its path, drop a trailing `.git`, split on
`/`. -/
def repoParts (repo_url : String) : String × List String :=
  let parsed := urlparse repo_url
  let rp := (stripSlashes parsed.2).data
  let rp := if leadsWith ['t', 'i', 'g', '.'] rp.reverse then rp.take (rp.length - 4) else rp
  (parsed.1, (splitChar '/' rp).map String.mk)

/-! ## `validate_repo_path` (lines 75-137) -/

/-- The request/response block of `validate_repo_path` (lines 119-137),
shared by the three hosting services: GET the API URL; 200 is success
except that for GitLab a 200 whose body is an empty JSON array means
the path was not found; 404 means not found; other statuses and raised
exceptions are errors.  (A `JSONDecodeError` from `response.json()` is
a `RequestException` in `requests >= 2.27` and lands in the same
`except` clause.) -/
def reqPath (net : Network) (service api_url path : String) : Bool × String :=
  match net.get api_url with
  | .resp status body =>
    if status == 200 then
      if service == "GitLab" then
        match body with
        | .ok (.arr 0) => (false, "Path \x27" ++ path ++ "\x27 not found in repository")
        | .ok _ => (true, "")
        | .malformed m => (false, "Failed to check path: " ++ m)
      else (true, "")
    else if status == 404 then
      (false, "Path \x27" ++ path ++ "\x27 not found in repository")
    else
      (false, service ++ " API returned HTTP " ++ toString status)
  | .exc _ m => (false, "Failed to check path: " ++ m)

/-- `validate_repo_path(repo_url, path)`: dispatch on the hosting
provider's domain and check that `path` exists in the repository via
the provider's listing API; unknown providers succeed with a warning
message. -/
def validate_repo_path (net : Network) (repo_url path : String) : Bool × String :=
  match repoParts repo_url with
  | (netloc, owner :: repo :: _) =>
    if netloc == "github.com" then
      reqPath net "GitHub"
        ("https://api.github.com/repos/" ++ owner ++ "/" ++ repo ++ "/contents/" ++ path) path
    else if netloc == "gitlab.com" || containsSub netloc "gitlab" then
      reqPath net "GitLab"
        ("https://" ++ netloc ++ "/api/v4/projects/" ++ owner ++ "%2F" ++ repo ++
          "/repository/tree?path=" ++ path) path
    else if netloc == "codeberg.org" || containsSub netloc "gitea" || containsSub netloc "forgejo" then
      reqPath net "Gitea/Forgejo"
        ("https://" ++ netloc ++ "/api/v1/repos/" ++ owner ++ "/" ++ repo ++ "/contents/" ++ path) path
    else
      (true, "Warning: Path validation skipped for " ++ (netloc ++ " (unsupported hosting service)"))
  | (_, _) => (false, "Invalid repository URL format")

/-! ## `fetch_plugin_json` (lines 140-211) -/

/-- The GitHub-family branch loop of `fetch_plugin_json` (lines
168-186): for each candidate branch in order, GET the raw URL; a 200
with parseable JSON is returned, a 200 with malformed JSON is a
distinct error, anything else (other statuses, raised exceptions) moves
on to the next branch; when the candidates are exhausted the file was
not found. -/
def fetchBranches (net : Network) (owner repo pjp : String) : List String → Option PyJson × String
  | [] => (none, "plugin.json not found at " ++ pjp)
  | b :: rest =>
    match net.get ("https://raw.githubusercontent.com/" ++ owner ++ "/" ++ repo ++ "/" ++ b ++ "/" ++ pjp) with
    | .resp 200 (.ok j) => (some j, "")
    | .resp 200 (.malformed m) => (none, "Invalid JSON in plugin.json: " ++ m)
    | .resp _ _ => fetchBranches net owner repo pjp rest
    | .exc _ _ => fetchBranches net owner repo pjp rest

/-- The single-raw-URL fetch of `fetch_plugin_json` for the
GitLab/Gitea families (lines 196-211): 200 with parseable JSON
succeeds, malformed JSON, 404, other statuses and raised exceptions
give their respective distinct errors. -/
def fetchRaw (net : Network) (raw_url pjp : String) : Option PyJson × String :=
  match net.get raw_url with
  | .resp 200 (.ok j) => (some j, "")
  | .resp 200 (.malformed m) => (none, "Invalid JSON in plugin.json: " ++ m)
  | .resp 404 _ => (none, "plugin.json not found at " ++ pjp)
  | .resp s _ => (none, "Failed to fetch plugin.json: HTTP " ++ toString s)
  | .exc _ m => (none, "Failed to fetch plugin.json: " ++ m)

/-- `fetch_plugin_json(repo_url, path)`: fetch `plugin.json` (or
`{path}/plugin.json`) from the repository's raw-file endpoint; for
GitHub try branches `main` then `master`, for GitLab/Gitea use the
`HEAD` ref; unknown providers are an error. -/
def fetch_plugin_json (net : Network) (repo_url path : String) : Option PyJson × String :=
  match repoParts repo_url with
  | (netloc, owner :: repo :: _) =>
    let pjp := if path ≠ "" then path ++ "/plugin.json" else "plugin.json"
    if netloc == "github.com" then
      fetchBranches net owner repo pjp ["main", "master"]
    else if netloc == "gitlab.com" || containsSub netloc "gitlab" then
      fetchRaw net ("https://" ++ netloc ++ "/" ++ owner ++ "/" ++ repo ++ "/-/raw/HEAD/" ++ pjp) pjp
    else if netloc == "codeberg.org" || containsSub netloc "gitea" || containsSub netloc "forgejo" then
      fetchRaw net ("https://" ++ netloc ++ "/" ++ owner ++ "/" ++ repo ++ "/raw/branch/HEAD/" ++ pjp) pjp
    else
      (none, "Unsupported hosting service: " ++ netloc)
  | (_, _) => (none, "Invalid repository URL format")

/-! ## `validate_plugin` (lines 214-306) -/

/-- A local plugin-metadata record: a JSON object whose checked fields
are strings, as an association list (Python `dict` keys are unique;
lookup takes the first binding). -/
def Plugin : Type := List (String × String)

/-- `plugin.get(key)` / `key in plugin` support. -/
def pget (p : Plugin) (k : String) : Option String :=
  (List.find? (fun kv => kv.1 == k) p).map (fun kv => kv.2)

/-- Result of opening and `json.load`-ing a plugin file (lines 223-229):
a parsed record, a `json.JSONDecodeError`, or any other exception while
reading. -/
inductive LoadResult where
  | ok (p : Plugin)
  | jsonErr (msg : String)
  | readErr (msg : String)

/-- The `id` block of `validate_plugin` (lines 233-240): missing key,
empty value, or value not in camelCase. -/
def id_errors (p : Plugin) : List String :=
  match pget p "id" with
  | none => ["Missing required \x27id\x27 property"]
  | some pid =>
    if pid = "" then ["ID is empty"]
    else if is_camel_case pid = false then
      ["ID \x27" ++ (pid ++
        "\x27 is not in camelCase format (must start with lowercase letter and contain only letters/digits)")]
    else []

/-- The `screenshot` block of `validate_plugin` (lines 243-252):
missing key, empty value, or unreachable URL. -/
def screenshot_errors (net : Network) (p : Plugin) : List String :=
  match pget p "screenshot" with
  | none => ["Missing required \x27screenshot\x27 property"]
  | some u =>
    if u = "" then ["Screenshot URL is empty"]
    else
      match validate_url net u with
      | (true, _) => []
      | (false, m) => ["Screenshot URL unreachable: " ++ m]

/-- The monorepo-path block of `validate_plugin` (lines 266-272), run
only when the repo URL is reachable: a failed check is an error, a
successful check with a non-empty message is the printed warning
(second component). -/
def path_check (net : Network) (p : Plugin) (r : String) : List String × List String :=
  match pget p "path" with
  | some pth =>
    if pth ≠ "" then
      match validate_repo_path net r pth with
      | (false, m) => (["Path validation failed: " ++ m], [])
      | (true, m) => if m ≠ "" then ([], [m]) else ([], [])
    else ([], [])
  | none => ([], [])

/-- The name cross-check of `validate_plugin` (lines 283-292), run only
when the local record has a `name` key; `pn` is `plugin_name`, i.e.
`plugin.get("name", plugin_file.stem)`. -/
def name_check (p : Plugin) (pn : String) (data : PyJson) : List String :=
  if (pget p "name").isSome then
    match pyGet data "name" with
    | none => ["Repository plugin.json is missing \x27name\x27 field"]
    | some rn =>
      if rn = "" then ["Repository plugin.json is missing \x27name\x27 field"]
      else if rn ≠ pn then
        ["Name mismatch: registry has \x27" ++ (pn ++ ("\x27 but repository plugin.json has \x27" ++ (rn ++ "\x27")))]
      else []
  else []

/-- The id cross-check of `validate_plugin` (lines 295-304), run only
when the local record has an `id` key. -/
def id_check (p : Plugin) (data : PyJson) : List String :=
  match pget p "id" with
  | some pid =>
    match pyGet data "id" with
    | none => ["Repository plugin.json is missing \x27id\x27 field"]
    | some rid =>
      if rid = "" then ["Repository plugin.json is missing \x27id\x27 field"]
      else if rid ≠ pid then
        ["ID mismatch: registry has \x27" ++ (pid ++ ("\x27 but repository plugin.json has \x27" ++ (rid ++ "\x27")))]
      else []
  | none => []

/-- The plugin.json fetch and cross-check of `validate_plugin` (lines
275-304): a failed fetch is a single error, a successful one runs the
name and id cross-checks. -/
def crosscheck (net : Network) (p : Plugin) (pn r : String) : List String :=
  match fetch_plugin_json net r ((pget p "path").getD "") with
  | (none, m) => ["Failed to fetch repository plugin.json: " ++ m]
  | (some data, _) => name_check p pn data ++ id_check p data

/-- The `repo` block of `validate_plugin` (lines 255-304): missing key,
empty value, unreachable URL (which skips the nested path check and
cross-check), or the nested checks themselves.  The second component
collects the warning messages the script prints. -/
def repo_result (net : Network) (p : Plugin) (pn : String) : List String × List String :=
  match pget p "repo" with
  | none => (["Missing required \x27repo\x27 property"], [])
  | some r =>
    if r = "" then (["Repository URL is empty"], [])
    else
      match validate_url net r with
      | (false, m) => (["Repository URL unreachable: " ++ m], [])
      | (true, _) =>
        ((path_check net p r).1 ++ crosscheck net p ((pget p "name").getD pn) r,
          (path_check net p r).2)

/-- `validate_plugin(plugin_file)`: parse failures short-circuit as the
file's sole error; otherwise the id, screenshot and repo blocks run in
sequence, accumulating errors.  The first component is the returned
error list, the second the warnings printed along the way.  `stem` is
`plugin_file.stem`, the default for `plugin_name`. -/
def validate_plugin (net : Network) (load : LoadResult) (stem : String) : List String × List String :=
  match load with
  | .jsonErr m => (["Invalid JSON: " ++ m], [])
  | .readErr m => (["Failed to read file: " ++ m], [])
  | .ok p =>
    (id_errors p ++ screenshot_errors net p ++ (repo_result net p stem).1,
      (repo_result net p stem).2)

/-! ## `main` (lines 309-349) -/

/-- One plugin file as `main` sees it: its filename, its stem, and the
result of reading/parsing it. -/
structure PluginFile where
  name : String
  stem : String
  load : LoadResult

/-- Lexicographic (code-point) order on character lists, Python's
string comparison used by `sorted(plugin_files)`. -/
def charListLe : List Char → List Char → Bool
  | [], _ => true
  | _ :: _, [] => false
  | c :: cs, d :: ds => if c < d then true else if d < c then false else charListLe cs ds

/-- Insert one file into a name-sorted list. -/
def insertByName (f : PluginFile) : List PluginFile → List PluginFile
  | [] => [f]
  | g :: gs => if charListLe f.name.data g.name.data then f :: g :: gs else g :: insertByName f gs

/-- `sorted(plugin_files)` by filename. -/
def sortByName : List PluginFile → List PluginFile
  | [] => []
  | f :: fs => insertByName f (sortByName fs)

/-- The error list `validate_plugin` returns for one file. -/
def validate_errors (net : Network) (f : PluginFile) : List String :=
  (validate_plugin net f.load f.stem).1

/-- The `all_errors` mapping of `main` (lines 326-337): the sorted files
whose validation produced a non-empty error list, with their errors. -/
def main_all_errors (net : Network) (files : List PluginFile) : List (String × List String) :=
  (sortByName files).filterMap (fun f =>
    if validate_errors net f = [] then none else some (f.name, validate_errors net f))

/-- The process exit code of `main`: 1 when the plugins directory is
missing, 0 when it holds no plugin files (a warning), 0 when every file
validates, 1 otherwise. -/
def main_exit (net : Network) (dirExists : Bool) (files : List PluginFile) : Nat :=
  if dirExists = false then 1
  else if files.isEmpty then 0
  else if main_all_errors net files = [] then 0 else 1

/-- Whether `main` printed the "No plugin files found" warning (lines
319-321). -/
def main_warned_empty (dirExists : Bool) (files : List PluginFile) : Bool :=
  dirExists && files.isEmpty

/-! ## String inequality helpers -/

/-- Two strings differing at some position differ. -/
theorem str_ne_of_idx {s t : String} (i : Nat) (h : s.data[i]? ≠ t.data[i]?) : s ≠ t :=
  fun he => h (he ▸ rfl)

/-- Indexing an appended string inside its first part. -/
theorem idx_append_left (a m : String) {i : Nat} (h : i < a.data.length) :
    (a ++ m).data[i]? = a.data[i]? := by
  rw [String.data_append]
  exact List.getElem?_append_left h

/-- A string differing from a prefix within that prefix differs from any
extension of it. -/
theorem ne_app_of_idx (s a m : String) (i : Nat) (hi : i < a.data.length)
    (h : s.data[i]? ≠ a.data[i]?) : s ≠ a ++ m := by
  refine str_ne_of_idx i ?_
  rw [idx_append_left a m hi]
  exact h

/-- Symmetric version of `ne_app_of_idx`. -/
theorem app_ne_of_idx (a m t : String) (i : Nat) (hi : i < a.data.length)
    (h : a.data[i]? ≠ t.data[i]?) : a ++ m ≠ t :=
  fun he => ne_app_of_idx t a m i hi (fun hh => h hh.symm) he.symm

/-- Extensions of prefixes that disagree within both prefixes differ. -/
theorem app_ne_app_of_idx (a m b n : String) (i : Nat) (hia : i < a.data.length)
    (hib : i < b.data.length) (h : a.data[i]? ≠ b.data[i]?) : a ++ m ≠ b ++ n := by
  refine str_ne_of_idx i ?_
  rw [idx_append_left a m hia, idx_append_left b n hib]
  exact h

/-- An extension of a non-empty string is non-empty. -/
theorem app_ne_empty (a m : String) (h : a.data ≠ []) : a ++ m ≠ "" := by
  intro he
  apply h
  have h2 : a.data ++ m.data = ("" : String).data := by
    have h3 := congrArg String.data he
    rwa [String.data_append] at h3
  exact (List.append_eq_nil.mp h2).1

/-- A network whose every request succeeds with an empty JSON object;
used to instantiate universally quantified theorems at a concrete
input. -/
def okNet : Network :=
  { head := fun _ => .resp 200 (.ok (.obj []))
    get := fun _ => .resp 200 (.ok (.obj [])) }

/-! ## Claim C1 -/

/-- C1: `is_camel_case(s)` should be true iff `s` is non-empty, starts
with a lowercase letter, and is all ASCII alphanumerics.  The listed
examples hold, but the claim fails on `"a\n"`: Python `$` matches just
before a trailing newline, so the code returns `True` although `'\n'`
is not alphanumeric — contradicting the claim and the docstring of the
function ("contains only letters and digits"). -/
theorem c1_is_camel_case_newline_bug :
    is_camel_case "myPlugin2" = true ∧ is_camel_case "MyPlugin" = false ∧
    is_camel_case "my-plugin" = false ∧ is_camel_case "" = false ∧
    is_camel_case "a\n" = true ∧ camel_case_spec "a\n" = false := by
  decide

/-! ## Claim C10 -/

/-- C10: when the repository URL path, stripped of surrounding slashes
and a trailing `.git`, splits into fewer than two segments, both
`validate_repo_path` and `fetch_plugin_json` return the
`Invalid repository URL format` error, for every network behavior (no
request is consulted). -/
theorem c10_invalid_repo_url_format (net : Network) (url p : String)
    (h : (repoParts url).2.length < 2) :
    validate_repo_path net url p = (false, "Invalid repository URL format") ∧
    fetch_plugin_json net url p = (none, "Invalid repository URL format") := by
  rcases hp : repoParts url with ⟨netloc, parts⟩
  rw [hp] at h
  simp only at h
  unfold validate_repo_path fetch_plugin_json
  rw [hp]
  rcases parts with _ | ⟨a, _ | ⟨b, rest⟩⟩
  · exact ⟨rfl, rfl⟩
  · exact ⟨rfl, rfl⟩
  · simp only [List.length_cons] at h
    omega

/-- Witness for C10 at a URL with a one-segment path. -/
theorem c10_witness :
    validate_repo_path okNet "https://github.com/onlyowner" "x" =
      (false, "Invalid repository URL format") ∧
    fetch_plugin_json okNet "https://github.com/onlyowner" "x" =
      (none, "Invalid repository URL format") :=
  c10_invalid_repo_url_format okNet "https://github.com/onlyowner" "x" (by decide)

/-! ## Claim C8 -/

/-- C8: `validate_url` HEADs the URL, retries with GET exactly when the
HEAD status is 405, succeeds iff the final status lies in `[200, 400)`,
and reports timeouts and connection failures as messages distinct from
each other and from the HTTP-status message. -/
theorem c8_validate_url_contract (net : Network) (url : String) :
    (∀ s b, net.head url = .resp s b → s ≠ 405 → validate_url net url = status_result s) ∧
    (∀ b s2 b2, net.head url = .resp 405 b → net.get url = .resp s2 b2 →
      validate_url net url = status_result s2) ∧
    (∀ s : Nat, (status_result s).1 = true ↔ (200 ≤ s ∧ s < 400)) ∧
    (∀ m, net.head url = .exc .timeout m → validate_url net url = (false, "Request timeout")) ∧
    (∀ m, net.head url = .exc .connErr m → validate_url net url = (false, "Connection error")) ∧
    ("Request timeout" : String) ≠ "Connection error" ∧
    (∀ s : Nat, ("Request timeout" : String) ≠ "HTTP " ++ toString s ∧
      ("Connection error" : String) ≠ "HTTP " ++ toString s) := by
  refine ⟨?_, ?_, ?_, ?_, ?_, by decide, ?_⟩
  · intro s b hh hne
    unfold validate_url
    rw [hh]
    simp [hne]
  · intro b s2 b2 hh hg
    unfold validate_url
    rw [hh, hg]
    simp
  · intro s
    unfold status_result
    constructor
    · intro h
      by_contra hc
      rw [if_neg] at h
      · exact Bool.false_ne_true h
      · simpa using hc
    · intro h
      rw [if_pos (by simpa using h)]
  · intro m hh
    unfold validate_url
    rw [hh]
    rfl
  · intro m hh
    unfold validate_url
    rw [hh]
    rfl
  · intro s
    constructor
    · exact ne_app_of_idx _ _ _ 0 (by decide) (by decide)
    · exact ne_app_of_idx _ _ _ 0 (by decide) (by decide)

/-- Witness for C8 at a network answering HTTP 200. -/
theorem c8_witness : validate_url okNet "https://example.com/x" = (true, "") := by
  have h := (c8_validate_url_contract okNet "https://example.com/x").1 200 (.ok (.obj []))
    rfl (by decide)
  rw [h]
  decide

/-! ## Claim C4 -/

/-- A branch candidate whose raw URL answers 200 with parseable JSON is
accepted immediately, whatever the later candidates would answer. -/
theorem fetchBranches_hit (net : Network) (owner repo pjp b : String) (bs : List String)
    (j : PyJson)
    (h : net.get ("https://raw.githubusercontent.com/" ++ owner ++ "/" ++ repo ++ "/" ++ b ++ "/" ++ pjp) =
      .resp 200 (.ok j)) :
    fetchBranches net owner repo pjp (b :: bs) = (some j, "") := by
  unfold fetchBranches
  rw [h]

/-- A branch candidate whose raw URL answers 200 with malformed JSON
stops the loop with the invalid-JSON error. -/
theorem fetchBranches_bad (net : Network) (owner repo pjp b : String) (bs : List String)
    (m : String)
    (h : net.get ("https://raw.githubusercontent.com/" ++ owner ++ "/" ++ repo ++ "/" ++ b ++ "/" ++ pjp) =
      .resp 200 (.malformed m)) :
    fetchBranches net owner repo pjp (b :: bs) = (none, "Invalid JSON in plugin.json: " ++ m) := by
  unfold fetchBranches
  rw [h]

/-- A branch candidate whose raw URL answers any non-200 status is
skipped and the loop moves on to the remaining candidates. -/
theorem fetchBranches_skip (net : Network) (owner repo pjp b : String) (bs : List String)
    (s : Nat) (bd : BodyJson)
    (h : net.get ("https://raw.githubusercontent.com/" ++ owner ++ "/" ++ repo ++ "/" ++ b ++ "/" ++ pjp) =
      .resp s bd)
    (hs : s ≠ 200) :
    fetchBranches net owner repo pjp (b :: bs) = fetchBranches net owner repo pjp bs := by
  conv_lhs => unfold fetchBranches
  rw [h]
  split
  · rename_i heq
    injection heq with h1 h2
    exact absurd h1 hs
  · rename_i heq
    injection heq with h1 h2
    exact absurd h1 hs
  · rfl
  · rename_i heq
    exact absurd heq (by simp)

/-- On a GitHub-family repository URL the fetch reduces to the
two-branch loop. -/
theorem fetch_plugin_json_github (net : Network) (r pth owner repo : String) (rest : List String)
    (hrp : repoParts r = ("github.com", owner :: repo :: rest)) :
    fetch_plugin_json net r pth =
      fetchBranches net owner repo (if pth ≠ "" then pth ++ "/plugin.json" else "plugin.json")
        ["main", "master"] := by
  unfold fetch_plugin_json
  rw [hrp]
  simp

/-- Network refuting C4 as stated: the `main`-branch raw URL answers
HTTP 201 (a 2xx status) with well-formed JSON, the `master`-branch one
answers 404. -/
def c4net : Network :=
  { head := fun _ => .resp 200 (.ok (.obj []))
    get := fun u =>
      if u = "https://raw.githubusercontent.com/o/r/main/plugin.json" then
        .resp 201 (.ok (.obj [("id", "x")]))
      else .resp 404 (.ok (.obj [])) }

/-- Counterexample to C4 as stated: a 201 response (inside the 2xx
range) carrying well-formed JSON is **not** accepted — the code only
accepts status exactly 200, so the fetch falls through to `master`,
gets a 404, and reports plugin.json as not found. -/
theorem c4_counterexample :
    (200 ≤ 201 ∧ 201 ≤ 299) ∧
    c4net.get "https://raw.githubusercontent.com/o/r/main/plugin.json" =
      .resp 201 (.ok (.obj [("id", "x")])) ∧
    fetch_plugin_json c4net "https://github.com/o/r" "" =
      (none, "plugin.json not found at plugin.json") := by
  decide

/-- C4 (amended): for every GitHub-family repository URL,
`fetch_plugin_json` requests the raw plugin.json URL for branch `main`
first and then branch `master`, and accepts the first response whose
HTTP status is **exactly 200** (not any 2xx status); a 200 response
whose body is malformed JSON yields an error distinct from the
not-found error and from the generic fetch-failure error. -/
theorem c4_amended_github_fetch (net : Network) (r pth owner repo : String) (rest : List String)
    (pjp mainU masterU : String)
    (hrp : repoParts r = ("github.com", owner :: repo :: rest))
    (hpjp : pjp = if pth ≠ "" then pth ++ "/plugin.json" else "plugin.json")
    (hmain : mainU = "https://raw.githubusercontent.com/" ++ owner ++ "/" ++ repo ++ "/" ++ "main" ++ "/" ++ pjp)
    (hmaster : masterU = "https://raw.githubusercontent.com/" ++ owner ++ "/" ++ repo ++ "/" ++ "master" ++ "/" ++ pjp) :
    (∀ j, net.get mainU = .resp 200 (.ok j) → fetch_plugin_json net r pth = (some j, "")) ∧
    (∀ m, net.get mainU = .resp 200 (.malformed m) →
      fetch_plugin_json net r pth = (none, "Invalid JSON in plugin.json: " ++ m)) ∧
    (∀ s b j, net.get mainU = .resp s b → s ≠ 200 → net.get masterU = .resp 200 (.ok j) →
      fetch_plugin_json net r pth = (some j, "")) ∧
    (∀ s b s2 b2, net.get mainU = .resp s b → s ≠ 200 →
      net.get masterU = .resp s2 b2 → s2 ≠ 200 →
      fetch_plugin_json net r pth = (none, "plugin.json not found at " ++ pjp)) ∧
    (∀ m, ("Invalid JSON in plugin.json: " ++ m) ≠ "plugin.json not found at " ++ pjp) ∧
    (∀ m s, ("Invalid JSON in plugin.json: " ++ m) ≠ "Failed to fetch plugin.json: " ++ s) := by
  subst hpjp
  subst hmain
  subst hmaster
  have hfetch := fetch_plugin_json_github net r pth owner repo rest hrp
  refine ⟨?_, ?_, ?_, ?_, ?_, ?_⟩
  · intro j hm
    rw [hfetch, fetchBranches_hit net owner repo _ "main" ["master"] j hm]
  · intro m hm
    rw [hfetch, fetchBranches_bad net owner repo _ "main" ["master"] m hm]
  · intro s b j hm hs hm2
    rw [hfetch, fetchBranches_skip net owner repo _ "main" ["master"] s b hm hs,
      fetchBranches_hit net owner repo _ "master" [] j hm2]
  · intro s b s2 b2 hm hs hm2 hs2
    rw [hfetch, fetchBranches_skip net owner repo _ "main" ["master"] s b hm hs,
      fetchBranches_skip net owner repo _ "master" [] s2 b2 hm2 hs2]
    rfl
  · intro m
    exact app_ne_app_of_idx _ _ _ _ 0 (by decide) (by decide) (by decide)
  · intro m s
    exact app_ne_app_of_idx _ _ _ _ 0 (by decide) (by decide) (by decide)

/-- Network for the C4 witness: `main` answers 404, `master` answers
200 with a plugin object. -/
def c4wnet : Network :=
  { head := fun _ => .resp 200 (.ok (.obj []))
    get := fun u =>
      if u = "https://raw.githubusercontent.com/o/r/master/plugin.json" then
        .resp 200 (.ok (.obj [("id", "x")]))
      else .resp 404 (.ok (.obj [])) }

/-- Witness for C4 (amended): with `main` answering 404 and `master`
answering 200, the fetch returns the `master` object. -/
theorem c4_witness :
    fetch_plugin_json c4wnet "https://github.com/o/r" "" = (some (.obj [("id", "x")]), "") := by
  have h := (c4_amended_github_fetch c4wnet "https://github.com/o/r" "" "o" "r" []
    "plugin.json" "https://raw.githubusercontent.com/o/r/main/plugin.json"
    "https://raw.githubusercontent.com/o/r/master/plugin.json"
    (by decide) (by decide) (by decide) (by decide)).2.2.1
    404 (.ok (.obj [])) (.obj [("id", "x")]) (by decide) (by decide) (by decide)
  exact h

/-! ## Shape lemmas: every possible element of each error block -/

/-- A successfully parsed record produces the three error blocks in
sequence. -/
theorem validate_plugin_ok_errors (net : Network) (p : Plugin) (stem : String) :
    (validate_plugin net (.ok p) stem).1 =
      id_errors p ++ screenshot_errors net p ++ (repo_result net p stem).1 := rfl

/-- The warnings of a successfully parsed record come from the repo
block. -/
theorem validate_plugin_ok_warns (net : Network) (p : Plugin) (stem : String) :
    (validate_plugin net (.ok p) stem).2 = (repo_result net p stem).2 := rfl

/-- The possible elements of the id block. -/
theorem id_errors_shape (p : Plugin) :
    ∀ e ∈ id_errors p,
      (e = "Missing required \x27id\x27 property" ∧ pget p "id" = none) ∨
      e = "ID is empty" ∨
      (∃ v, e = "ID \x27" ++ v) := by
  intro e he
  unfold id_errors at he
  split at he
  · rename_i heq
    rw [List.mem_singleton] at he
    exact Or.inl ⟨he, heq⟩
  · split at he
    · rw [List.mem_singleton] at he
      exact Or.inr (Or.inl he)
    · split at he
      · rw [List.mem_singleton] at he
        exact Or.inr (Or.inr ⟨_, he⟩)
      · exact absurd he (List.not_mem_nil e)

/-- The possible elements of the screenshot block. -/
theorem screenshot_errors_shape (net : Network) (p : Plugin) :
    ∀ e ∈ screenshot_errors net p,
      (e = "Missing required \x27screenshot\x27 property" ∧ pget p "screenshot" = none) ∨
      e = "Screenshot URL is empty" ∨
      (∃ m, e = "Screenshot URL unreachable: " ++ m) := by
  intro e he
  unfold screenshot_errors at he
  split at he
  · rename_i heq
    rw [List.mem_singleton] at he
    exact Or.inl ⟨he, heq⟩
  · split at he
    · rw [List.mem_singleton] at he
      exact Or.inr (Or.inl he)
    · split at he
      · exact absurd he (List.not_mem_nil e)
      · rw [List.mem_singleton] at he
        exact Or.inr (Or.inr ⟨_, he⟩)

/-- The possible elements of the path block error list. -/
theorem path_check_shape (net : Network) (p : Plugin) (r : String) :
    ∀ e ∈ (path_check net p r).1, ∃ m, e = "Path validation failed: " ++ m := by
  intro e he
  unfold path_check at he
  split at he
  · split at he
    · split at he
      · rw [List.mem_singleton] at he
        exact ⟨_, he⟩
      · split at he
        · exact absurd he (List.not_mem_nil e)
        · exact absurd he (List.not_mem_nil e)
    · exact absurd he (List.not_mem_nil e)
  · exact absurd he (List.not_mem_nil e)

/-- The possible elements of the name cross-check, all conditional on
the local record having a `name` key. -/
theorem name_check_shape (p : Plugin) (pn : String) (data : PyJson) :
    ∀ e ∈ name_check p pn data,
      (pget p "name").isSome = true ∧
      (e = "Repository plugin.json is missing \x27name\x27 field" ∨
        ∃ m, e = "Name mismatch: registry has \x27" ++ m) := by
  intro e he
  unfold name_check at he
  split at he
  · rename_i hsome
    refine ⟨hsome, ?_⟩
    split at he
    · rw [List.mem_singleton] at he
      exact Or.inl he
    · split at he
      · rw [List.mem_singleton] at he
        exact Or.inl he
      · split at he
        · rw [List.mem_singleton] at he
          exact Or.inr ⟨_, he⟩
        · exact absurd he (List.not_mem_nil e)
  · exact absurd he (List.not_mem_nil e)

/-- The possible elements of the id cross-check, all conditional on the
local record having an `id` key. -/
theorem id_check_shape (p : Plugin) (data : PyJson) :
    ∀ e ∈ id_check p data,
      (pget p "id").isSome = true ∧
      (e = "Repository plugin.json is missing \x27id\x27 field" ∨
        ∃ m, e = "ID mismatch: registry has \x27" ++ m) := by
  intro e he
  unfold id_check at he
  split at he
  · rename_i pid heq
    refine ⟨by rw [heq]; rfl, ?_⟩
    split at he
    · rw [List.mem_singleton] at he
      exact Or.inl he
    · split at he
      · rw [List.mem_singleton] at he
        exact Or.inl he
      · split at he
        · rw [List.mem_singleton] at he
          exact Or.inr ⟨_, he⟩
        · exact absurd he (List.not_mem_nil e)
  · exact absurd he (List.not_mem_nil e)

/-- The possible elements of the fetch/cross-check block. -/
theorem crosscheck_shape (net : Network) (p : Plugin) (pn r : String) :
    ∀ e ∈ crosscheck net p pn r,
      (∃ m, e = "Failed to fetch repository plugin.json: " ++ m) ∨
      ((pget p "name").isSome = true ∧
        (e = "Repository plugin.json is missing \x27name\x27 field" ∨
          ∃ m, e = "Name mismatch: registry has \x27" ++ m)) ∨
      ((pget p "id").isSome = true ∧
        (e = "Repository plugin.json is missing \x27id\x27 field" ∨
          ∃ m, e = "ID mismatch: registry has \x27" ++ m)) := by
  intro e he
  unfold crosscheck at he
  split at he
  · rw [List.mem_singleton] at he
    exact Or.inl ⟨_, he⟩
  · rename_i data a heq
    rw [List.mem_append] at he
    rcases he with he | he
    · exact Or.inr (Or.inl (name_check_shape p pn data e he))
    · exact Or.inr (Or.inr (id_check_shape p data e he))

/-- The possible elements of the repo block error list. -/
theorem repo_result_shape (net : Network) (p : Plugin) (pn : String) :
    ∀ e ∈ (repo_result net p pn).1,
      (e = "Missing required \x27repo\x27 property" ∧ pget p "repo" = none) ∨
      e = "Repository URL is empty" ∨
      (∃ m, e = "Repository URL unreachable: " ++ m) ∨
      (∃ m, e = "Path validation failed: " ++ m) ∨
      (∃ m, e = "Failed to fetch repository plugin.json: " ++ m) ∨
      ((pget p "name").isSome = true ∧
        (e = "Repository plugin.json is missing \x27name\x27 field" ∨
          ∃ m, e = "Name mismatch: registry has \x27" ++ m)) ∨
      ((pget p "id").isSome = true ∧
        (e = "Repository plugin.json is missing \x27id\x27 field" ∨
          ∃ m, e = "ID mismatch: registry has \x27" ++ m)) := by
  intro e he
  unfold repo_result at he
  split at he
  · rename_i heq
    rw [List.mem_singleton] at he
    exact Or.inl ⟨he, heq⟩
  · rename_i r heq
    split at he
    · rw [List.mem_singleton] at he
      exact Or.inr (Or.inl he)
    · split at he
      · rw [List.mem_singleton] at he
        exact Or.inr (Or.inr (Or.inl ⟨_, he⟩))
      · have he2 : e ∈ (path_check net p r).1 ++ crosscheck net p ((pget p "name").getD pn) r := he
        rw [List.mem_append] at he2
        rcases he2 with hx | hx
        · exact Or.inr (Or.inr (Or.inr (Or.inl (path_check_shape net p r e hx))))
        · rcases crosscheck_shape net p ((pget p "name").getD pn) r e hx with hc | hc | hc
          · exact Or.inr (Or.inr (Or.inr (Or.inr (Or.inl hc))))
          · exact Or.inr (Or.inr (Or.inr (Or.inr (Or.inr (Or.inl hc)))))
          · exact Or.inr (Or.inr (Or.inr (Or.inr (Or.inr (Or.inr hc)))))

/-! ## Non-membership of the missing-required messages in foreign blocks -/

/-- The missing-id message never arises in the screenshot block. -/
theorem missingId_notin_ss (net : Network) (p : Plugin) :
    "Missing required \x27id\x27 property" ∉ screenshot_errors net p := by
  intro hmem
  rcases screenshot_errors_shape net p _ hmem with ⟨h1, _⟩ | h1 | ⟨m, h1⟩
  · exact absurd h1 (by decide)
  · exact absurd h1 (by decide)
  · exact absurd h1 (ne_app_of_idx _ _ _ 0 (by decide) (by decide))

/-- The missing-id message never arises in the repo block. -/
theorem missingId_notin_repo (net : Network) (p : Plugin) (pn : String) :
    "Missing required \x27id\x27 property" ∉ (repo_result net p pn).1 := by
  intro hmem
  rcases repo_result_shape net p pn _ hmem with ⟨h1, _⟩ | h1 | ⟨m, h1⟩ | ⟨m, h1⟩ | ⟨m, h1⟩ |
    ⟨_, h1 | ⟨m, h1⟩⟩ | ⟨_, h1 | ⟨m, h1⟩⟩
  · exact absurd h1 (by decide)
  · exact absurd h1 (by decide)
  · exact absurd h1 (ne_app_of_idx _ _ _ 0 (by decide) (by decide))
  · exact absurd h1 (ne_app_of_idx _ _ _ 0 (by decide) (by decide))
  · exact absurd h1 (ne_app_of_idx _ _ _ 0 (by decide) (by decide))
  · exact absurd h1 (by decide)
  · exact absurd h1 (ne_app_of_idx _ _ _ 0 (by decide) (by decide))
  · exact absurd h1 (by decide)
  · exact absurd h1 (ne_app_of_idx _ _ _ 0 (by decide) (by decide))

/-- The missing-screenshot message never arises in the id block. -/
theorem missingSs_notin_id (p : Plugin) :
    "Missing required \x27screenshot\x27 property" ∉ id_errors p := by
  intro hmem
  rcases id_errors_shape p _ hmem with ⟨h1, _⟩ | h1 | ⟨v, h1⟩
  · exact absurd h1 (by decide)
  · exact absurd h1 (by decide)
  · exact absurd h1 (ne_app_of_idx _ _ _ 0 (by decide) (by decide))

/-- The missing-screenshot message never arises in the repo block. -/
theorem missingSs_notin_repo (net : Network) (p : Plugin) (pn : String) :
    "Missing required \x27screenshot\x27 property" ∉ (repo_result net p pn).1 := by
  intro hmem
  rcases repo_result_shape net p pn _ hmem with ⟨h1, _⟩ | h1 | ⟨m, h1⟩ | ⟨m, h1⟩ | ⟨m, h1⟩ |
    ⟨_, h1 | ⟨m, h1⟩⟩ | ⟨_, h1 | ⟨m, h1⟩⟩
  · exact absurd h1 (by decide)
  · exact absurd h1 (by decide)
  · exact absurd h1 (ne_app_of_idx _ _ _ 0 (by decide) (by decide))
  · exact absurd h1 (ne_app_of_idx _ _ _ 0 (by decide) (by decide))
  · exact absurd h1 (ne_app_of_idx _ _ _ 0 (by decide) (by decide))
  · exact absurd h1 (by decide)
  · exact absurd h1 (ne_app_of_idx _ _ _ 0 (by decide) (by decide))
  · exact absurd h1 (by decide)
  · exact absurd h1 (ne_app_of_idx _ _ _ 0 (by decide) (by decide))

/-- The missing-repo message never arises in the id block. -/
theorem missingRepo_notin_id (p : Plugin) :
    "Missing required \x27repo\x27 property" ∉ id_errors p := by
  intro hmem
  rcases id_errors_shape p _ hmem with ⟨h1, _⟩ | h1 | ⟨v, h1⟩
  · exact absurd h1 (by decide)
  · exact absurd h1 (by decide)
  · exact absurd h1 (ne_app_of_idx _ _ _ 0 (by decide) (by decide))

/-- The missing-repo message never arises in the screenshot block. -/
theorem missingRepo_notin_ss (net : Network) (p : Plugin) :
    "Missing required \x27repo\x27 property" ∉ screenshot_errors net p := by
  intro hmem
  rcases screenshot_errors_shape net p _ hmem with ⟨h1, _⟩ | h1 | ⟨m, h1⟩
  · exact absurd h1 (by decide)
  · exact absurd h1 (by decide)
  · exact absurd h1 (ne_app_of_idx _ _ _ 0 (by decide) (by decide))

/-! ## Claim C9 -/

/-- C9: for each of the required keys `id`, `screenshot`, `repo`, a
record missing that key yields exactly one missing-required entry for
it in the error list, whatever the other fields and the network do. -/
theorem c9_missing_required_exactly_once (net : Network) (p : Plugin) (stem : String) :
    (pget p "id" = none →
      (validate_plugin net (.ok p) stem).1.count "Missing required \x27id\x27 property" = 1) ∧
    (pget p "screenshot" = none →
      (validate_plugin net (.ok p) stem).1.count "Missing required \x27screenshot\x27 property" = 1) ∧
    (pget p "repo" = none →
      (validate_plugin net (.ok p) stem).1.count "Missing required \x27repo\x27 property" = 1) := by
  refine ⟨?_, ?_, ?_⟩
  · intro h
    rw [validate_plugin_ok_errors, List.count_append, List.count_append]
    have h1 : id_errors p = ["Missing required \x27id\x27 property"] := by
      unfold id_errors
      rw [h]
    rw [h1, List.count_eq_zero.mpr (missingId_notin_ss net p),
      List.count_eq_zero.mpr (missingId_notin_repo net p stem)]
    decide
  · intro h
    rw [validate_plugin_ok_errors, List.count_append, List.count_append]
    have h1 : screenshot_errors net p = ["Missing required \x27screenshot\x27 property"] := by
      unfold screenshot_errors
      rw [h]
    rw [h1, List.count_eq_zero.mpr (missingSs_notin_id p),
      List.count_eq_zero.mpr (missingSs_notin_repo net p stem)]
    decide
  · intro h
    rw [validate_plugin_ok_errors, List.count_append, List.count_append]
    have h1 : (repo_result net p stem).1 = ["Missing required \x27repo\x27 property"] := by
      unfold repo_result
      rw [h]
    rw [h1, List.count_eq_zero.mpr (missingRepo_notin_id p),
      List.count_eq_zero.mpr (missingRepo_notin_ss net p)]
    decide

/-- Witness for C9 at the empty record, where all three keys are
missing. -/
theorem c9_witness :
    (validate_plugin okNet (.ok ([] : Plugin)) "f").1.count "Missing required \x27id\x27 property" = 1 ∧
    (validate_plugin okNet (.ok ([] : Plugin)) "f").1.count "Missing required \x27screenshot\x27 property" = 1 ∧
    (validate_plugin okNet (.ok ([] : Plugin)) "f").1.count "Missing required \x27repo\x27 property" = 1 :=
  ⟨(c9_missing_required_exactly_once okNet [] "f").1 rfl,
   (c9_missing_required_exactly_once okNet [] "f").2.1 rfl,
   (c9_missing_required_exactly_once okNet [] "f").2.2 rfl⟩

/-! ## Claim C6 -/

/-- Insertion keeps exactly the members. -/
theorem mem_insertByName (a f : PluginFile) (l : List PluginFile) :
    a ∈ insertByName f l ↔ a = f ∨ a ∈ l := by
  induction l with
  | nil => simp [insertByName]
  | cons g gs ih =>
    unfold insertByName
    split
    · simp
    · rw [List.mem_cons, ih, List.mem_cons]
      tauto

/-- Sorting keeps exactly the members. -/
theorem mem_sortByName (a : PluginFile) (l : List PluginFile) :
    a ∈ sortByName l ↔ a ∈ l := by
  induction l with
  | nil => simp [sortByName]
  | cons f fs ih =>
    unfold sortByName
    rw [mem_insertByName, ih, List.mem_cons]

/-- C6: the process exits 0 when every plugin file validates, exits 0
with a warning when the plugins directory holds no plugin files, and
exits non-zero when any file fails validation or when the directory
does not exist. -/
theorem c6_main_exit_code (net : Network) (dirExists : Bool) (files : List PluginFile) :
    (dirExists = true → (∀ f ∈ files, validate_errors net f = []) →
      main_exit net dirExists files = 0) ∧
    (dirExists = true → files = [] →
      main_exit net dirExists files = 0 ∧ main_warned_empty dirExists files = true) ∧
    (dirExists = true → (∃ f ∈ files, validate_errors net f ≠ []) →
      main_exit net dirExists files ≠ 0) ∧
    (dirExists = false → main_exit net dirExists files ≠ 0) := by
  refine ⟨?_, ?_, ?_, ?_⟩
  · intro hd hall
    subst hd
    unfold main_exit
    by_cases hf : files.isEmpty
    · simp [hf]
    · have hmae : main_all_errors net files = [] := by
        unfold main_all_errors
        rw [List.filterMap_eq_nil_iff]
        intro f hf2
        have hmem : f ∈ files := (mem_sortByName f files).mp hf2
        rw [if_pos (hall f hmem)]
      simp [hf, hmae]
  · intro hd hf
    subst hd
    subst hf
    exact ⟨by simp [main_exit], by simp [main_warned_empty]⟩
  · intro hd hex
    obtain ⟨f, hf, hne⟩ := hex
    subst hd
    unfold main_exit
    have hfe : files.isEmpty = false := by
      rcases files with _ | ⟨g, gs⟩
      · exact absurd hf (List.not_mem_nil f)
      · rfl
    have hmae : main_all_errors net files ≠ [] := by
      intro hmae
      unfold main_all_errors at hmae
      rw [List.filterMap_eq_nil_iff] at hmae
      have h2 := hmae f ((mem_sortByName f files).mpr hf)
      rw [if_neg hne] at h2
      exact absurd h2 (by simp)
    simp [hfe, hmae]
  · intro hd
    subst hd
    simp [main_exit]

/-- Witness for C6: the empty directory exits 0 with a warning, a
missing directory exits non-zero. -/
theorem c6_witness :
    main_exit okNet true [] = 0 ∧ main_warned_empty true [] = true ∧
    main_exit okNet false [] ≠ 0 :=
  ⟨((c6_main_exit_code okNet true []).2.1 rfl rfl).1,
   ((c6_main_exit_code okNet true []).2.1 rfl rfl).2,
   (c6_main_exit_code okNet false []).2.2.2 rfl⟩

/-! ## Claim C5 -/

/-- With a reachable repo URL the repo block is the path errors
followed by the cross-check errors. -/
theorem repo_result_reachable (net : Network) (p : Plugin) (stem r b : String)
    (hr : pget p "repo" = some r) (hrne : r ≠ "") (hrv : validate_url net r = (true, b)) :
    (repo_result net p stem).1 =
      (path_check net p r).1 ++ crosscheck net p ((pget p "name").getD stem) r := by
  unfold repo_result
  rw [hr]
  simp only [hrv]
  rw [if_neg hrne]

/-- With an unreachable repo URL the repo block is the single
unreachable error: path check and cross-check are skipped. -/
theorem repo_result_unreachable (net : Network) (p : Plugin) (stem r m : String)
    (hr : pget p "repo" = some r) (hrne : r ≠ "") (hrv : validate_url net r = (false, m)) :
    repo_result net p stem = (["Repository URL unreachable: " ++ m], []) := by
  unfold repo_result
  rw [hr]
  simp only [hrv]
  rw [if_neg hrne]

/-- C5: an unreachable screenshot URL contributes its error yet the
path check and the plugin.json cross-check still run and their failures
are accumulated, whereas an unreachable repo URL ends the record's
error list at the unreachable error, skipping both nested checks. -/
theorem c5_error_accumulation (net : Network) (p : Plugin) (stem : String) :
    (∀ s m r b, pget p "screenshot" = some s → s ≠ "" → validate_url net s = (false, m) →
      pget p "repo" = some r → r ≠ "" → validate_url net r = (true, b) →
      ("Screenshot URL unreachable: " ++ m) ∈ (validate_plugin net (.ok p) stem).1 ∧
      (∀ fm, fetch_plugin_json net r ((pget p "path").getD "") = (none, fm) →
        ("Failed to fetch repository plugin.json: " ++ fm) ∈ (validate_plugin net (.ok p) stem).1) ∧
      (∀ pth pm, pget p "path" = some pth → pth ≠ "" →
        validate_repo_path net r pth = (false, pm) →
        ("Path validation failed: " ++ pm) ∈ (validate_plugin net (.ok p) stem).1)) ∧
    (∀ r m, pget p "repo" = some r → r ≠ "" → validate_url net r = (false, m) →
      (validate_plugin net (.ok p) stem).1 =
        id_errors p ++ screenshot_errors net p ++ ["Repository URL unreachable: " ++ m]) := by
  constructor
  · intro s m r b hs hsne hsv hr hrne hrv
    have hss : screenshot_errors net p = ["Screenshot URL unreachable: " ++ m] := by
      unfold screenshot_errors
      rw [hs]
      simp only [hsv]
      rw [if_neg hsne]
    have hrepo1 := repo_result_reachable net p stem r b hr hrne hrv
    refine ⟨?_, ?_, ?_⟩
    · rw [validate_plugin_ok_errors, hss]
      rw [List.mem_append]
      left
      rw [List.mem_append]
      right
      exact List.mem_singleton.mpr rfl
    · intro fm hf
      have hcc : crosscheck net p ((pget p "name").getD stem) r =
          ["Failed to fetch repository plugin.json: " ++ fm] := by
        unfold crosscheck
        rw [hf]
      rw [validate_plugin_ok_errors, hrepo1, hcc]
      rw [List.mem_append]
      right
      rw [List.mem_append]
      right
      exact List.mem_singleton.mpr rfl
    · intro pth pm hp hpne hv
      have hpc : (path_check net p r).1 = ["Path validation failed: " ++ pm] := by
        unfold path_check
        rw [hp]
        simp only [hv]
        rw [if_pos hpne]
      rw [validate_plugin_ok_errors, hrepo1, hpc]
      rw [List.mem_append]
      right
      rw [List.mem_append]
      left
      exact List.mem_singleton.mpr rfl
  · intro r m hr hrne hrv
    rw [validate_plugin_ok_errors, repo_result_unreachable net p stem r m hr hrne hrv]

/-- Network for the C5 witness: the screenshot URL answers HTTP 500,
everything else HEADs fine, and every raw fetch answers 404. -/
def c5net : Network :=
  { head := fun u =>
      if u = "https://bad.example.com/s.png" then .resp 500 (.ok (.obj []))
      else .resp 200 (.ok (.obj []))
    get := fun _ => .resp 404 (.ok (.obj [])) }

/-- Record for the C5 witness. -/
def c5p : Plugin :=
  [("id", "myPlugin"), ("screenshot", "https://bad.example.com/s.png"),
   ("repo", "https://github.com/o/r")]

/-- Witness for C5: the screenshot failure is reported and the
cross-check still ran and reported its own failure. -/
theorem c5_witness :
    ("Screenshot URL unreachable: " ++ "HTTP 500") ∈ (validate_plugin c5net (.ok c5p) "f").1 ∧
    ("Failed to fetch repository plugin.json: " ++ "plugin.json not found at plugin.json") ∈
      (validate_plugin c5net (.ok c5p) "f").1 := by
  have h := (c5_error_accumulation c5net c5p "f").1 "https://bad.example.com/s.png" "HTTP 500"
    "https://github.com/o/r" "" rfl (by decide) (by decide) rfl (by decide) (by decide)
  exact ⟨h.1, h.2.1 "plugin.json not found at plugin.json" (by decide)⟩

/-! ## Claim C2 -/

/-- On an unsupported hosting domain with a well-formed owner/repo path
the path check succeeds with the skip warning, without any request. -/
theorem validate_repo_path_unsupported (net : Network) (repo_url pth netloc owner repo : String)
    (rest : List String)
    (hrp : repoParts repo_url = (netloc, owner :: repo :: rest))
    (h1 : netloc ≠ "github.com") (h2 : netloc ≠ "gitlab.com")
    (h3 : containsSub netloc "gitlab" = false) (h4 : netloc ≠ "codeberg.org")
    (h5 : containsSub netloc "gitea" = false) (h6 : containsSub netloc "forgejo" = false) :
    validate_repo_path net repo_url pth =
      (true, "Warning: Path validation skipped for " ++ (netloc ++ " (unsupported hosting service)")) := by
  unfold validate_repo_path
  rw [hrp]
  simp [h1, h2, h3, h4, h5, h6]

/-- On an unsupported hosting domain with a well-formed owner/repo path
the fetch fails with the unsupported-service error, without any
request. -/
theorem fetch_plugin_json_unsupported (net : Network) (repo_url pth netloc owner repo : String)
    (rest : List String)
    (hrp : repoParts repo_url = (netloc, owner :: repo :: rest))
    (h1 : netloc ≠ "github.com") (h2 : netloc ≠ "gitlab.com")
    (h3 : containsSub netloc "gitlab" = false) (h4 : netloc ≠ "codeberg.org")
    (h5 : containsSub netloc "gitea" = false) (h6 : containsSub netloc "forgejo" = false) :
    fetch_plugin_json net repo_url pth = (none, "Unsupported hosting service: " ++ netloc) := by
  unfold fetch_plugin_json
  rw [hrp]
  simp [h1, h2, h3, h4, h5, h6]

/-- Record refuting C2 as stated: reachable repo on an unsupported
host, with a path set. -/
def c2p : Plugin :=
  [("id", "fooBar"), ("screenshot", "https://img.example.com/s.png"),
   ("repo", "https://example.com/owner/repo"), ("path", "sub")]

/-- Counterexample to C2 as stated: with every URL reachable, the
record on an unsupported host gets the skip warning but its error list
is **not** empty — the plugin.json fetch reports the unsupported
hosting service as an error, so validation fails. -/
theorem c2_counterexample :
    validate_plugin okNet (.ok c2p) "fooBar" =
      (["Failed to fetch repository plugin.json: Unsupported hosting service: example.com"],
       ["Warning: Path validation skipped for example.com (unsupported hosting service)"]) ∧
    (validate_plugin okNet (.ok c2p) "fooBar").1 ≠ [] := by
  decide

/-- C2 (amended): for a record with a reachable repo URL on a domain
outside the three supported families and a non-empty path, the path
check itself succeeds with a warning message rather than a path error,
but the record's validation still reports the unsupported-hosting fetch
error, so the error list is non-empty. -/
theorem c2_amended_unsupported_host (net : Network) (p : Plugin) (stem : String)
    (r pth netloc owner repo b : String) (rest : List String)
    (hr : pget p "repo" = some r) (hrne : r ≠ "") (hrv : validate_url net r = (true, b))
    (hp : pget p "path" = some pth) (hpne : pth ≠ "")
    (hrp : repoParts r = (netloc, owner :: repo :: rest))
    (h1 : netloc ≠ "github.com") (h2 : netloc ≠ "gitlab.com")
    (h3 : containsSub netloc "gitlab" = false) (h4 : netloc ≠ "codeberg.org")
    (h5 : containsSub netloc "gitea" = false) (h6 : containsSub netloc "forgejo" = false) :
    ("Warning: Path validation skipped for " ++ (netloc ++ " (unsupported hosting service)")) ∈
      (validate_plugin net (.ok p) stem).2 ∧
    ("Failed to fetch repository plugin.json: " ++ ("Unsupported hosting service: " ++ netloc)) ∈
      (validate_plugin net (.ok p) stem).1 := by
  have hwarnne :
      ("Warning: Path validation skipped for " ++ (netloc ++ " (unsupported hosting service)")) ≠ "" :=
    app_ne_empty _ _ (by decide)
  have hpc : path_check net p r =
      ([], ["Warning: Path validation skipped for " ++ (netloc ++ " (unsupported hosting service)")]) := by
    unfold path_check
    rw [hp]
    simp only [validate_repo_path_unsupported net r pth netloc owner repo rest hrp h1 h2 h3 h4 h5 h6]
    rw [if_pos hpne, if_pos hwarnne]
  constructor
  · rw [validate_plugin_ok_warns]
    have h7 : (repo_result net p stem).2 = (path_check net p r).2 := by
      unfold repo_result
      rw [hr]
      simp only [hrv]
      rw [if_neg hrne]
    rw [h7, hpc]
    exact List.mem_singleton.mpr rfl
  · have hfetch : fetch_plugin_json net r ((pget p "path").getD "") =
        (none, "Unsupported hosting service: " ++ netloc) :=
      fetch_plugin_json_unsupported net r _ netloc owner repo rest hrp h1 h2 h3 h4 h5 h6
    have hcc : crosscheck net p ((pget p "name").getD stem) r =
        ["Failed to fetch repository plugin.json: " ++ ("Unsupported hosting service: " ++ netloc)] := by
      unfold crosscheck
      rw [hfetch]
    rw [validate_plugin_ok_errors, repo_result_reachable net p stem r b hr hrne hrv, hcc]
    rw [List.mem_append]
    right
    rw [List.mem_append]
    right
    exact List.mem_singleton.mpr rfl

/-- Witness for C2 (amended) at the concrete record on example.com. -/
theorem c2_witness :
    ("Warning: Path validation skipped for " ++ ("example.com" ++ " (unsupported hosting service)")) ∈
      (validate_plugin okNet (.ok c2p) "fooBar").2 ∧
    ("Failed to fetch repository plugin.json: " ++ ("Unsupported hosting service: " ++ "example.com")) ∈
      (validate_plugin okNet (.ok c2p) "fooBar").1 :=
  c2_amended_unsupported_host okNet c2p "fooBar" "https://example.com/owner/repo" "sub"
    "example.com" "owner" "repo" "" [] rfl (by decide) (by decide) rfl (by decide) (by decide)
    (by decide) (by decide) (by decide) (by decide) (by decide) (by decide)

/-! ## Claim C3 -/

/-- Network for the C3 counterexample: the repository's plugin.json
names the plugin `Different`. -/
def c3net : Network :=
  { head := fun _ => .resp 200 (.ok (.obj []))
    get := fun u =>
      if u = "https://raw.githubusercontent.com/o/r/main/plugin.json" then
        .resp 200 (.ok (.obj [("name", "Different"), ("id", "fooBar")]))
      else .resp 404 (.malformed "x") }

/-- Record for the C3 counterexample: no local `name` key. -/
def c3p : Plugin :=
  [("id", "fooBar"), ("screenshot", "https://img.example.com/s.png"),
   ("repo", "https://github.com/o/r")]

/-- Counterexample to C3 as stated: the local `name` key is absent, the
remote plugin.json carries the name `Different`, different from the
filename stem `myPlugin` — yet validation reports **no** error at all,
because the name cross-check only runs when the local record has a
`name` key. -/
theorem c3_counterexample :
    pget c3p "name" = none ∧
    fetch_plugin_json c3net "https://github.com/o/r" "" =
      (some (.obj [("name", "Different"), ("id", "fooBar")]), "") ∧
    ("Different" : String) ≠ "myPlugin" ∧
    validate_plugin c3net (.ok c3p) "myPlugin" = ([], []) := by
  decide

/-- C3 (amended): when the local record has no `name` key the name
cross-check is skipped entirely — `name_check` produces nothing for any
remote record, and no name-related error (missing remote `name` field
or name mismatch) ever appears in the record's error list; the stem
default never reaches a comparison. -/
theorem c3_amended_name_check_skipped (net : Network) (p : Plugin) (stem : String)
    (h : pget p "name" = none) :
    (∀ pn data, name_check p pn data = []) ∧
    (∀ e ∈ (validate_plugin net (.ok p) stem).1,
      e ≠ "Repository plugin.json is missing \x27name\x27 field" ∧
      ∀ m, e ≠ "Name mismatch: registry has \x27" ++ m) := by
  have hns : (pget p "name").isSome = false := by rw [h]; rfl
  constructor
  · intro pn data
    unfold name_check
    simp [hns]
  · intro e he
    rw [validate_plugin_ok_errors, List.mem_append] at he
    rcases he with he | he
    · rw [List.mem_append] at he
      rcases he with he | he
      · rcases id_errors_shape p e he with ⟨h1, _⟩ | h1 | ⟨v, h1⟩
        · subst h1
          exact ⟨by decide, fun m => ne_app_of_idx _ _ _ 0 (by decide) (by decide)⟩
        · subst h1
          exact ⟨by decide, fun m => ne_app_of_idx _ _ _ 0 (by decide) (by decide)⟩
        · subst h1
          exact ⟨app_ne_of_idx _ _ _ 0 (by decide) (by decide),
            fun m => app_ne_app_of_idx _ _ _ _ 0 (by decide) (by decide) (by decide)⟩
      · rcases screenshot_errors_shape net p e he with ⟨h1, _⟩ | h1 | ⟨m2, h1⟩
        · subst h1
          exact ⟨by decide, fun m => ne_app_of_idx _ _ _ 0 (by decide) (by decide)⟩
        · subst h1
          exact ⟨by decide, fun m => ne_app_of_idx _ _ _ 0 (by decide) (by decide)⟩
        · subst h1
          exact ⟨app_ne_of_idx _ _ _ 0 (by decide) (by decide),
            fun m => app_ne_app_of_idx _ _ _ _ 0 (by decide) (by decide) (by decide)⟩
    · rcases repo_result_shape net p stem e he with ⟨h1, _⟩ | h1 | ⟨m2, h1⟩ | ⟨m2, h1⟩ | ⟨m2, h1⟩ |
        ⟨hname, _⟩ | ⟨_, h1 | ⟨m2, h1⟩⟩
      · subst h1
        exact ⟨by decide, fun m => ne_app_of_idx _ _ _ 0 (by decide) (by decide)⟩
      · subst h1
        exact ⟨by decide, fun m => ne_app_of_idx _ _ _ 0 (by decide) (by decide)⟩
      · subst h1
        exact ⟨app_ne_of_idx _ _ _ 11 (by decide) (by decide),
          fun m => app_ne_app_of_idx _ _ _ _ 0 (by decide) (by decide) (by decide)⟩
      · subst h1
        exact ⟨app_ne_of_idx _ _ _ 0 (by decide) (by decide),
          fun m => app_ne_app_of_idx _ _ _ _ 0 (by decide) (by decide) (by decide)⟩
      · subst h1
        exact ⟨app_ne_of_idx _ _ _ 0 (by decide) (by decide),
          fun m => app_ne_app_of_idx _ _ _ _ 0 (by decide) (by decide) (by decide)⟩
      · rw [hns] at hname
        exact absurd hname (by decide)
      · subst h1
        exact ⟨by decide, fun m => ne_app_of_idx _ _ _ 0 (by decide) (by decide)⟩
      · subst h1
        exact ⟨app_ne_of_idx _ _ _ 0 (by decide) (by decide),
          fun m => app_ne_app_of_idx _ _ _ _ 0 (by decide) (by decide) (by decide)⟩

/-- Witness for C3 (amended) at the counterexample record. -/
theorem c3_witness :
    name_check c3p "w" (.obj [("name", "Different")]) = [] ∧
    ∀ e ∈ (validate_plugin c3net (.ok c3p) "myPlugin").1,
      e ≠ "Repository plugin.json is missing \x27name\x27 field" := by
  have h := c3_amended_name_check_skipped c3net c3p "myPlugin" rfl
  exact ⟨h.1 "w" (.obj [("name", "Different")]), fun e he => (h.2 e he).1⟩

/-! ## Claim C7 -/

/-- When the remote name equals the compared local name, the name
cross-check can only report the missing-field message (when the value
is empty), never a mismatch. -/
theorem name_check_no_mismatch (p : Plugin) (pn : String) (data : PyJson)
    (hrn : pyGet data "name" = some pn) :
    ∀ e ∈ name_check p pn data, e = "Repository plugin.json is missing \x27name\x27 field" := by
  intro e he
  unfold name_check at he
  split at he
  · split at he
    · exact List.mem_singleton.mp he
    · split at he
      · exact List.mem_singleton.mp he
      · split at he
        · rename_i heqr hne2 hcond
          rw [hrn] at heqr
          injection heqr with heq2
          exact absurd heq2.symm hcond
        · exact absurd he (List.not_mem_nil e)
  · exact absurd he (List.not_mem_nil e)

/-- When the remote id equals the local id, the id cross-check can only
report the missing-field message, never a mismatch. -/
theorem id_check_no_mismatch (p : Plugin) (data : PyJson) (pid : String)
    (hidl : pget p "id" = some pid) (hrid : pyGet data "id" = some pid) :
    ∀ e ∈ id_check p data, e = "Repository plugin.json is missing \x27id\x27 field" := by
  intro e he
  unfold id_check at he
  split at he
  · rename_i pid2 heq
    rw [hidl] at heq
    injection heq with heq2
    subst heq2
    split at he
    · exact List.mem_singleton.mp he
    · split at he
      · exact List.mem_singleton.mp he
      · split at he
        · rename_i heqr hne2 hcond
          rw [hrid] at heqr
          injection heqr with heq4
          exact absurd heq4.symm hcond
        · exact absurd he (List.not_mem_nil e)
  · exact absurd he (List.not_mem_nil e)

/-- C7: with the local id present, the repo reachable and the remote
plugin.json fetched, a remote id differing from the local id yields
exactly one ID-mismatch error naming both values; and when remote and
local id and name agree, no mismatch error of either kind appears. -/
theorem c7_id_mismatch_reporting (net : Network) (p : Plugin) (stem : String) :
    (∀ pid r b data a rid,
      pget p "id" = some pid → pget p "repo" = some r → r ≠ "" →
      validate_url net r = (true, b) →
      fetch_plugin_json net r ((pget p "path").getD "") = (some data, a) →
      pyGet data "id" = some rid → rid ≠ "" → rid ≠ pid →
      (validate_plugin net (.ok p) stem).1.count
        ("ID mismatch: registry has \x27" ++
          (pid ++ ("\x27 but repository plugin.json has \x27" ++ (rid ++ "\x27")))) = 1) ∧
    (∀ pid nm r b data a,
      pget p "id" = some pid → pget p "name" = some nm → pget p "repo" = some r → r ≠ "" →
      validate_url net r = (true, b) →
      fetch_plugin_json net r ((pget p "path").getD "") = (some data, a) →
      pyGet data "id" = some pid → pyGet data "name" = some nm →
      ∀ e ∈ (validate_plugin net (.ok p) stem).1,
        (∀ x, e ≠ "ID mismatch: registry has \x27" ++ x) ∧
        (∀ x, e ≠ "Name mismatch: registry has \x27" ++ x)) := by
  constructor
  · intro pid r b data a rid hidl hr hrne hrv hf hrid hridne hne
    have hcc : crosscheck net p ((pget p "name").getD stem) r =
        name_check p ((pget p "name").getD stem) data ++ id_check p data := by
      unfold crosscheck
      rw [hf]
    have hic : id_check p data =
        ["ID mismatch: registry has \x27" ++
          (pid ++ ("\x27 but repository plugin.json has \x27" ++ (rid ++ "\x27")))] := by
      unfold id_check
      rw [hidl]
      simp only [hrid]
      rw [if_neg (by simpa using hridne), if_pos hne]
    have h0id : (id_errors p).count
        ("ID mismatch: registry has \x27" ++
          (pid ++ ("\x27 but repository plugin.json has \x27" ++ (rid ++ "\x27")))) = 0 := by
      refine List.count_eq_zero.mpr ?_
      intro hmem
      rcases id_errors_shape p _ hmem with ⟨h1, _⟩ | h1 | ⟨v, h1⟩
      · exact absurd h1 (app_ne_of_idx _ _ _ 0 (by decide) (by decide))
      · exact absurd h1 (app_ne_of_idx _ _ _ 3 (by decide) (by decide))
      · exact absurd h1 (app_ne_app_of_idx _ _ _ _ 3 (by decide) (by decide) (by decide))
    have h0ss : (screenshot_errors net p).count
        ("ID mismatch: registry has \x27" ++
          (pid ++ ("\x27 but repository plugin.json has \x27" ++ (rid ++ "\x27")))) = 0 := by
      refine List.count_eq_zero.mpr ?_
      intro hmem
      rcases screenshot_errors_shape net p _ hmem with ⟨h1, _⟩ | h1 | ⟨m2, h1⟩
      · exact absurd h1 (app_ne_of_idx _ _ _ 0 (by decide) (by decide))
      · exact absurd h1 (app_ne_of_idx _ _ _ 0 (by decide) (by decide))
      · exact absurd h1 (app_ne_app_of_idx _ _ _ _ 0 (by decide) (by decide) (by decide))
    have h0path : ((path_check net p r).1).count
        ("ID mismatch: registry has \x27" ++
          (pid ++ ("\x27 but repository plugin.json has \x27" ++ (rid ++ "\x27")))) = 0 := by
      refine List.count_eq_zero.mpr ?_
      intro hmem
      obtain ⟨m2, h1⟩ := path_check_shape net p r _ hmem
      exact absurd h1 (app_ne_app_of_idx _ _ _ _ 0 (by decide) (by decide) (by decide))
    have h0name : (name_check p ((pget p "name").getD stem) data).count
        ("ID mismatch: registry has \x27" ++
          (pid ++ ("\x27 but repository plugin.json has \x27" ++ (rid ++ "\x27")))) = 0 := by
      refine List.count_eq_zero.mpr ?_
      intro hmem
      rcases (name_check_shape p ((pget p "name").getD stem) data _ hmem).2 with h1 | ⟨m2, h1⟩
      · exact absurd h1 (app_ne_of_idx _ _ _ 0 (by decide) (by decide))
      · exact absurd h1 (app_ne_app_of_idx _ _ _ _ 0 (by decide) (by decide) (by decide))
    rw [validate_plugin_ok_errors, repo_result_reachable net p stem r b hr hrne hrv, hcc, hic,
      List.count_append, List.count_append, List.count_append, List.count_append,
      h0id, h0ss, h0path, h0name]
    simp
  · intro pid nm r b data a hidl hname hr hrne hrv hf hrid hrn e he
    have hcc : crosscheck net p ((pget p "name").getD stem) r =
        name_check p ((pget p "name").getD stem) data ++ id_check p data := by
      unfold crosscheck
      rw [hf]
    rw [validate_plugin_ok_errors, repo_result_reachable net p stem r b hr hrne hrv, hcc,
      List.mem_append, List.mem_append, List.mem_append, List.mem_append] at he
    have hrn2 : pyGet data "name" = some ((pget p "name").getD stem) := by
      rw [hname]
      exact hrn
    rcases he with ((he | he) | (he | (he | he)))
    · rcases id_errors_shape p e he with ⟨h1, _⟩ | h1 | ⟨v, h1⟩
      · subst h1
        exact ⟨fun x => ne_app_of_idx _ _ _ 0 (by decide) (by decide),
          fun x => ne_app_of_idx _ _ _ 0 (by decide) (by decide)⟩
      · subst h1
        exact ⟨fun x => ne_app_of_idx _ _ _ 3 (by decide) (by decide),
          fun x => ne_app_of_idx _ _ _ 0 (by decide) (by decide)⟩
      · subst h1
        exact ⟨fun x => app_ne_app_of_idx _ _ _ _ 3 (by decide) (by decide) (by decide),
          fun x => app_ne_app_of_idx _ _ _ _ 0 (by decide) (by decide) (by decide)⟩
    · rcases screenshot_errors_shape net p e he with ⟨h1, _⟩ | h1 | ⟨m2, h1⟩
      · subst h1
        exact ⟨fun x => ne_app_of_idx _ _ _ 0 (by decide) (by decide),
          fun x => ne_app_of_idx _ _ _ 0 (by decide) (by decide)⟩
      · subst h1
        exact ⟨fun x => ne_app_of_idx _ _ _ 0 (by decide) (by decide),
          fun x => ne_app_of_idx _ _ _ 0 (by decide) (by decide)⟩
      · subst h1
        exact ⟨fun x => app_ne_app_of_idx _ _ _ _ 0 (by decide) (by decide) (by decide),
          fun x => app_ne_app_of_idx _ _ _ _ 0 (by decide) (by decide) (by decide)⟩
    · obtain ⟨m2, h1⟩ := path_check_shape net p r _ he
      subst h1
      exact ⟨fun x => app_ne_app_of_idx _ _ _ _ 0 (by decide) (by decide) (by decide),
        fun x => app_ne_app_of_idx _ _ _ _ 0 (by decide) (by decide) (by decide)⟩
    · have h1 := name_check_no_mismatch p ((pget p "name").getD stem) data hrn2 e he
      subst h1
      exact ⟨fun x => ne_app_of_idx _ _ _ 0 (by decide) (by decide),
        fun x => ne_app_of_idx _ _ _ 0 (by decide) (by decide)⟩
    · have h1 := id_check_no_mismatch p data pid hidl hrid e he
      subst h1
      exact ⟨fun x => ne_app_of_idx _ _ _ 0 (by decide) (by decide),
        fun x => ne_app_of_idx _ _ _ 0 (by decide) (by decide)⟩

/-- Network for the C7 witness: the remote plugin.json declares id
`bazQux`. -/
def c7net : Network :=
  { head := fun _ => .resp 200 (.ok (.obj []))
    get := fun u =>
      if u = "https://raw.githubusercontent.com/o/r/main/plugin.json" then
        .resp 200 (.ok (.obj [("id", "bazQux")]))
      else .resp 404 (.ok (.obj [])) }

/-- Record for the C7 witness: local id `fooBar`. -/
def c7p : Plugin :=
  [("id", "fooBar"), ("screenshot", "https://img.example.com/s.png"),
   ("repo", "https://github.com/o/r")]

/-- Witness for C7: local id `fooBar` against remote id `bazQux` gives
exactly one ID-mismatch error naming both. -/
theorem c7_witness :
    (validate_plugin c7net (.ok c7p) "f").1.count
      ("ID mismatch: registry has \x27" ++
        ("fooBar" ++ ("\x27 but repository plugin.json has \x27" ++ ("bazQux" ++ "\x27")))) = 1 :=
  (c7_id_mismatch_reporting c7net c7p "f").1 "fooBar" "https://github.com/o/r" "" (.obj [("id", "bazQux")])
    "" "bazQux" rfl rfl (by decide) (by decide) (by decide) (by decide) (by decide) (by decide)
